import Mathlib

/-!
Shallow embedding of `src/client.py` (eth-fetcher CLI client) together with a
spec-modelled fragment of the implied server-side Job Registry.

The client is modelled as pure functions from the parsed CLI arguments and the
server's HTTP response to the list of observable effects (HTTP requests, prints,
file writes) and a termination outcome.  The `requests` library is modelled
abstractly: a `Response` carries its status code, its body as raw bytes
(`content`), its body decoded as text (`text`), and its body parsed as JSON
(`jsonData`); `raise_for_status` raises exactly for status codes in [400, 600).
-/

namespace EthFetcher

/-- JSON values, as returned by `Response.json()`. -/
inductive Json where
  | null
  | bool (b : Bool)
  | num (n : Int)
  | str (s : String)
  | arr (elems : List Json)
  | obj (fields : List (String × Json))

/-- An HTTP response as seen through the `requests` library: `status_code` is the
numeric status, `content` the raw body bytes, `text` the body decoded as text, and
`jsonData` the body parsed as JSON (the value `r.json()` returns). -/
structure Response where
  status_code : Nat
  text : String
  content : List Nat
  jsonData : Json

/-- Observable effects of one client invocation, in order. -/
inductive Effect where
  | httpGet (url : String)
  | httpPost (url : String) (body : Option String)
  | printStr (s : String)
  | printJson (j : Json)
  | writeFile (path : String) (bytes : List Nat)
  | printHelp

/-- How the invocation terminates: normal return, `sys.exit(code)`, or an uncaught
exception (e.g. `requests.HTTPError` from `raise_for_status`, or a `TypeError`). -/
inductive Outcome where
  | ok
  | exited (code : Nat)
  | raised
deriving DecidableEq

/-- Whether `Response.raise_for_status()` raises `HTTPError`: it does exactly when
the status code is a 4xx client error or a 5xx server error. -/
def raiseForStatus (r : Response) : Bool :=
  decide (400 ≤ r.status_code) && decide (r.status_code < 600)

/-- Python iteration over a parsed JSON value: arrays yield their elements, objects
their keys, strings their characters; numbers, booleans and null are not iterable
(iterating raises `TypeError`). -/
def jsonIter : Json → Option (List Json)
  | .arr elems => some elems
  | .obj fields => some (fields.map fun kv => Json.str kv.1)
  | .str s => some (s.toList.map fun c => Json.str c.toString)
  | _ => none

/-- Embedding of `cmd_request` (src/client.py lines 6-9): POST
`{server}/request?start={start}&end={end}` with no body, `raise_for_status`,
then print the response parsed as JSON. -/
def cmd_request (server : String) (startArg endArg : Int) (r : Response) :
    List Effect × Outcome :=
  let post := Effect.httpPost
    (server ++ "/request?start=" ++ toString startArg ++ "&end=" ++ toString endArg)
    none
  if raiseForStatus r then ([post], .raised)
  else ([post, .printJson r.jsonData], .ok)

/-- Embedding of `cmd_status` (src/client.py lines 11-14): GET
`{server}/status/{jobid}`, `raise_for_status`, then print the response parsed as
JSON. -/
def cmd_status (server jobid : String) (r : Response) : List Effect × Outcome :=
  let get := Effect.httpGet (server ++ "/status/" ++ jobid)
  if raiseForStatus r then ([get], .raised)
  else ([get, .printJson r.jsonData], .ok)

/-- Embedding of `cmd_stop` (src/client.py lines 16-19): GET
`{server}/stop/{jobid}`, `raise_for_status`, then print the response text. -/
def cmd_stop (server jobid : String) (r : Response) : List Effect × Outcome :=
  let get := Effect.httpGet (server ++ "/stop/" ++ jobid)
  if raiseForStatus r then ([get], .raised)
  else ([get, .printStr r.text], .ok)

/-- Embedding of `cmd_download` (src/client.py lines 21-28): GET
`{server}/download/{jobid}`; on a status other than 200 print the error text and
`sys.exit(1)`; on 200 write the raw response bytes to the output file and print a
confirmation naming that file. -/
def cmd_download (server jobid output : String) (r : Response) :
    List Effect × Outcome :=
  let get := Effect.httpGet (server ++ "/download/" ++ jobid)
  if r.status_code ≠ 200 then
    ([get, .printStr ("Error: " ++ r.text)], .exited 1)
  else
    ([get, .writeFile output r.content, .printStr ("Saved to " ++ output)], .ok)

/-- Embedding of `cmd_list` (src/client.py lines 30-34): GET `{server}/jobs`,
`raise_for_status`, then print each element of the response parsed as JSON on its
own line, in order. -/
def cmd_list (server : String) (r : Response) : List Effect × Outcome :=
  let get := Effect.httpGet (server ++ "/jobs")
  if raiseForStatus r then ([get], .raised)
  else
    match jsonIter r.jsonData with
    | some elems => (get :: elems.map Effect.printJson, .ok)
    | none => ([get], .raised)

/-- The five subcommands of the CLI, with their positional arguments. -/
inductive Sub where
  | request (startArg endArg : Int)
  | status (jobid : String)
  | stop (jobid : String)
  | download (jobid output : String)
  | list

/-- Parsed command line: the optional `--server` flag and the chosen subcommand
(none when no subcommand was given). -/
structure Cli where
  server : Option String
  sub : Option Sub

/-- Default of the `--server` flag (src/client.py line 39). -/
def defaultServer : String := "http://localhost:8080"

/-- Dispatch of one subcommand against one server response. -/
def runSub (server : String) : Sub → Response → List Effect × Outcome
  | .request a b, r => cmd_request server a b r
  | .status j, r => cmd_status server j r
  | .stop j, r => cmd_stop server j r
  | .download j o, r => cmd_download server j o r
  | .list, r => cmd_list server r

/-- Embedding of `main` (src/client.py lines 36-69): resolve the server base URL
(the `--server` value, defaulting to `http://localhost:8080`), then run the chosen
subcommand; with no subcommand, print the help text and return normally. -/
def runMain (cli : Cli) (r : Response) : List Effect × Outcome :=
  match cli.sub with
  | none => ([Effect.printHelp], .ok)
  | some s => runSub (cli.server.getD defaultServer) s r

/-- The single HTTP request effect a subcommand issues, from the URLs in
src/client.py. -/
def subRequestEffect (server : String) : Sub → Effect
  | .request a b => .httpPost
      (server ++ "/request?start=" ++ toString a ++ "&end=" ++ toString b) none
  | .status j => .httpGet (server ++ "/status/" ++ j)
  | .stop j => .httpGet (server ++ "/stop/" ++ j)
  | .download j _ => .httpGet (server ++ "/download/" ++ j)
  | .list => .httpGet (server ++ "/jobs")

/-- Whether an effect is an HTTP request. -/
def Effect.isHttp : Effect → Bool
  | .httpGet _ => true
  | .httpPost _ _ => true
  | _ => false

/-- Whether a subcommand is `download` (the one command that does not use
`raise_for_status`). -/
def Sub.isDownload : Sub → Bool
  | .download _ _ => true
  | _ => false

/-! Spec-modelled fragment of the implied server-side Job Registry.  The server is
not part of this repository; these definitions follow the specification's words. -/

/-- Modelled from the spec: the Job status enum `Queued, Running, Completed,
Failed, Stopped` of the data model (the server code is not in this repository). -/
inductive Status where
  | queued
  | running
  | completed
  | failed
  | stopped
deriving DecidableEq

/-- Modelled from the spec: which single status transitions the monotonic ordering
`Queued → Running → \x7bCompleted, Failed, Stopped\x7d` allows; the registry's
`transition` fails with InvalidTransition on any other move (the server code is not
in this repository). -/
def stepAllowed : Status → Status → Bool
  | .queued, .running => true
  | .running, .completed => true
  | .running, .failed => true
  | .running, .stopped => true
  | _, _ => false

/-- Modelled from the spec: position of a status along the lifecycle ordering, used
to state that no transition moves backward. -/
def statusRank : Status → Nat
  | .queued => 0
  | .running => 1
  | .completed => 2
  | .failed => 2
  | .stopped => 2

/-- Whether every consecutive pair in a status list is an allowed transition,
starting from the given status. -/
def chainFrom (s : Status) : List Status → Bool
  | [] => true
  | t :: rest => stepAllowed s t && chainFrom t rest

/-- Modelled from the spec: an observable status history of one job — it begins at
`Queued` (the status `create` assigns) and each later status is reached from the
previous one by an allowed transition. -/
def isTrace : List Status → Bool
  | [] => true
  | s :: rest => decide (s = Status.queued) && chainFrom s rest

/-- Whether a status is terminal (Completed, Failed or Stopped). -/
def Status.isTerminal : Status → Bool
  | .completed => true
  | .failed => true
  | .stopped => true
  | _ => false

/-- Errors of the registry's `create` operation. -/
inductive CreateError where
  | invalidRange
deriving DecidableEq

/-- Modelled from the spec: a Job of the data model — start block, end block and
current status (timestamps are omitted; no claim mentions them). -/
structure Job where
  startBlock : Int
  endBlock : Int
  status : Status
deriving DecidableEq

/-- Modelled from the spec: the Job Registry's state — the persisted jobs keyed by
job ID, plus the next fresh ID. -/
structure Registry where
  jobs : List (Nat × Job)
  nextId : Nat
deriving DecidableEq

/-- Modelled from the spec: `create(start, end) -> jobID` fails with InvalidRange
when `end < start`; otherwise it persists a fresh `Queued` job under a fresh ID and
returns that ID.  The result pairs the outcome with the (possibly updated)
registry state (the server code is not in this repository). -/
def create (startBlock endBlock : Int) (reg : Registry) :
    Except CreateError Nat × Registry :=
  if endBlock < startBlock then (.error .invalidRange, reg)
  else
    (.ok reg.nextId,
      { jobs := (reg.nextId, ⟨startBlock, endBlock, .queued⟩) :: reg.jobs,
        nextId := reg.nextId + 1 })

/-! Helper lemmas shared by the claim theorems. -/

/-- The success message of `cmd_download` never coincides with its error message:
the two string prefixes differ at the first character. -/
theorem saved_to_ne_error_text (a b : String) : "Saved to " ++ a ≠ "Error: " ++ b := by
  intro h
  have h3 : (("Saved to " ++ a).data.head?) = (("Error: " ++ b).data.head?) := by rw [h]
  have h4 : (some 'S' : Option Char) = some 'E' := h3
  simp at h4

/-- C1: on a download whose response status is not 200, the client prints the
response's error text, exits with code 1, and never prints the success message. -/
theorem download_non200_error_and_exit (server jobid output : String) (r : Response)
    (h : r.status_code ≠ 200) :
    cmd_download server jobid output r =
      ([Effect.httpGet (server ++ "/download/" ++ jobid),
        Effect.printStr ("Error: " ++ r.text)], Outcome.exited 1) ∧
    Effect.printStr ("Saved to " ++ output) ∉ (cmd_download server jobid output r).1 := by
  refine ⟨by simp [cmd_download, h], ?_⟩
  simp only [cmd_download, if_pos h]
  intro hmem
  simp only [List.mem_cons, List.not_mem_nil, or_false] at hmem
  rcases hmem with hmem | hmem
  · exact Effect.noConfusion hmem
  · exact saved_to_ne_error_text output r.text (Effect.printStr.inj hmem)

/-- Witness for C1 at a concrete 404 response. -/
theorem download_non200_error_and_exit_witness :
    cmd_download "http://localhost:8080" "j1" "out.csv"
        (Response.mk 404 "job not found" [] Json.null) =
      ([Effect.httpGet ("http://localhost:8080" ++ "/download/" ++ "j1"),
        Effect.printStr ("Error: " ++ "job not found")], Outcome.exited 1) ∧
    Effect.printStr ("Saved to " ++ "out.csv") ∉
      (cmd_download "http://localhost:8080" "j1" "out.csv"
        (Response.mk 404 "job not found" [] Json.null)).1 :=
  download_non200_error_and_exit "http://localhost:8080" "j1" "out.csv"
    (Response.mk 404 "job not found" [] Json.null) (by decide)

/-- C2: on a download whose response status is not 200, the client writes no file
at all — no `writeFile` effect of any path or content occurs. -/
theorem download_non200_no_file_write (server jobid output : String) (r : Response)
    (h : r.status_code ≠ 200) :
    ∀ p bytes, Effect.writeFile p bytes ∉ (cmd_download server jobid output r).1 := by
  intro p bytes
  simp [cmd_download, h]

/-- Witness for C2 at a concrete 500 response. -/
theorem download_non200_no_file_write_witness :
    Effect.writeFile "out.csv" [7, 8] ∉
      (cmd_download "http://localhost:8080" "j1" "out.csv"
        (Response.mk 500 "boom" [1, 2] Json.null)).1 :=
  download_non200_no_file_write "http://localhost:8080" "j1" "out.csv"
    (Response.mk 500 "boom" [1, 2] Json.null) (by decide) "out.csv" [7, 8]

/-- C3: on a download whose response status is exactly 200, the client writes the
response body bytes unmodified to the output file and then prints the confirmation
naming that file. -/
theorem download_200_saves_body (server jobid output : String) (r : Response)
    (h : r.status_code = 200) :
    cmd_download server jobid output r =
      ([Effect.httpGet (server ++ "/download/" ++ jobid),
        Effect.writeFile output r.content,
        Effect.printStr ("Saved to " ++ output)], Outcome.ok) := by
  simp [cmd_download, h]

/-- Witness for C3 at a concrete 200 response. -/
theorem download_200_saves_body_witness :
    cmd_download "http://localhost:8080" "j1" "out.csv"
        (Response.mk 200 "csv" [99, 100] Json.null) =
      ([Effect.httpGet ("http://localhost:8080" ++ "/download/" ++ "j1"),
        Effect.writeFile "out.csv" [99, 100],
        Effect.printStr ("Saved to " ++ "out.csv")], Outcome.ok) :=
  download_200_saves_body "http://localhost:8080" "j1" "out.csv"
    (Response.mk 200 "csv" [99, 100] Json.null) rfl

/-- C4: the request subcommand issues exactly one HTTP request, a POST to
`{server}/request?start={START}&end={END}` with no body, as its first effect; on a
2xx response it prints the response parsed as JSON and returns normally. -/
theorem request_single_post_and_json (server : String) (a b : Int) (r : Response) :
    (cmd_request server a b r).1.filter Effect.isHttp =
      [Effect.httpPost
        (server ++ "/request?start=" ++ toString a ++ "&end=" ++ toString b) none] ∧
    (cmd_request server a b r).1.head? =
      some (Effect.httpPost
        (server ++ "/request?start=" ++ toString a ++ "&end=" ++ toString b) none) ∧
    (200 ≤ r.status_code → r.status_code < 300 →
      cmd_request server a b r =
        ([Effect.httpPost
            (server ++ "/request?start=" ++ toString a ++ "&end=" ++ toString b) none,
          Effect.printJson r.jsonData], Outcome.ok)) := by
  refine ⟨?_, ?_, ?_⟩
  · cases hb : raiseForStatus r <;>
      simp [cmd_request, hb, List.filter, Effect.isHttp]
  · cases hb : raiseForStatus r <;> simp [cmd_request, hb]
  · intro h2 h3
    have hrs : raiseForStatus r = false := by
      unfold raiseForStatus
      simp only [Bool.and_eq_false_iff, decide_eq_false_iff_not, not_le, not_lt]
      omega
    simp [cmd_request, hrs]

/-- Witness for C4 at a concrete 200 response, with the 2xx hypotheses
discharged. -/
theorem request_single_post_and_json_witness :
    (cmd_request "http://localhost:8080" 3 7
        (Response.mk 200 "" [] (Json.str "id"))).1.filter Effect.isHttp =
      [Effect.httpPost
        ("http://localhost:8080" ++ "/request?start=" ++ toString (3 : Int) ++
          "&end=" ++ toString (7 : Int)) none] ∧
    cmd_request "http://localhost:8080" 3 7 (Response.mk 200 "" [] (Json.str "id")) =
      ([Effect.httpPost
          ("http://localhost:8080" ++ "/request?start=" ++ toString (3 : Int) ++
            "&end=" ++ toString (7 : Int)) none,
        Effect.printJson (Json.str "id")], Outcome.ok) := by
  have h := request_single_post_and_json "http://localhost:8080" 3 7
    (Response.mk 200 "" [] (Json.str "id"))
  exact ⟨h.1, h.2.2 (by decide) (by decide)⟩

/-- C5 counterexample: a 304 response is not 2xx, yet `cmd_status` does not raise —
`raise_for_status` only raises for 4xx/5xx — and the client prints the normal
command output and returns normally, so the claim as stated is false. -/
theorem non2xx_success_on_304 :
    ¬ (200 ≤ 304 ∧ 304 < 300) ∧
    cmd_status "http://localhost:8080" "j1" (Response.mk 304 "" [] Json.null) =
      ([Effect.httpGet ("http://localhost:8080" ++ "/status/" ++ "j1"),
        Effect.printJson Json.null], Outcome.ok) :=
  ⟨by decide, rfl⟩

/-- C5 (amended): for the request, status, stop and list subcommands, a 4xx or 5xx
response makes the client raise a generic request failure (`HTTPError` from
`raise_for_status`): the only effect is the HTTP request itself and no normal
command output is printed. -/
theorem non_download_4xx5xx_raises (server : String) (s : Sub) (r : Response)
    (hd : s.isDownload = false) (h4 : 400 ≤ r.status_code) (h6 : r.status_code < 600) :
    runSub server s r = ([subRequestEffect server s], Outcome.raised) := by
  have hrs : raiseForStatus r = true := by
    unfold raiseForStatus
    simp only [Bool.and_eq_true, decide_eq_true_eq]
    exact ⟨h4, h6⟩
  cases s with
  | request a b => simp [runSub, cmd_request, hrs, subRequestEffect]
  | status j => simp [runSub, cmd_status, hrs, subRequestEffect]
  | stop j => simp [runSub, cmd_stop, hrs, subRequestEffect]
  | download j o => simp [Sub.isDownload] at hd
  | list => simp [runSub, cmd_list, hrs, subRequestEffect]

/-- Witness for the amended C5: the list subcommand on a concrete 404 response. -/
theorem non_download_4xx5xx_raises_witness :
    runSub "http://localhost:8080" Sub.list (Response.mk 404 "gone" [] Json.null) =
      ([subRequestEffect "http://localhost:8080" Sub.list], Outcome.raised) :=
  non_download_4xx5xx_raises "http://localhost:8080" Sub.list
    (Response.mk 404 "gone" [] Json.null) rfl (by decide) (by decide)

/-- A terminal status (Completed, Failed or Stopped) allows no further transition,
so a valid chain from it is empty. -/
theorem chainFrom_terminal_eq_nil (u : Status) (hu : u.isTerminal = true)
    (rest : List Status) (h : chainFrom u rest = true) : rest = [] := by
  cases rest with
  | nil => rfl
  | cons v r =>
    exfalso
    cases u with
    | queued => simp [Status.isTerminal] at hu
    | running => simp [Status.isTerminal] at hu
    | completed => cases v <;> simp [chainFrom, stepAllowed] at h
    | failed => cases v <;> simp [chainFrom, stepAllowed] at h
    | stopped => cases v <;> simp [chainFrom, stepAllowed] at h

/-- A valid chain continuing from Running is empty or a single terminal status. -/
theorem chainFrom_running_cases (rest : List Status)
    (h : chainFrom Status.running rest = true) :
    rest = [] ∨ ∃ t, Status.isTerminal t = true ∧ rest = [t] := by
  cases rest with
  | nil => exact Or.inl rfl
  | cons u r =>
    right
    cases u with
    | queued => simp [chainFrom, stepAllowed] at h
    | running => simp [chainFrom, stepAllowed] at h
    | completed =>
      have hr : r = [] := chainFrom_terminal_eq_nil Status.completed rfl r
        (by simpa [chainFrom, stepAllowed] using h)
      exact ⟨Status.completed, rfl, by rw [hr]⟩
    | failed =>
      have hr : r = [] := chainFrom_terminal_eq_nil Status.failed rfl r
        (by simpa [chainFrom, stepAllowed] using h)
      exact ⟨Status.failed, rfl, by rw [hr]⟩
    | stopped =>
      have hr : r = [] := chainFrom_terminal_eq_nil Status.stopped rfl r
        (by simpa [chainFrom, stepAllowed] using h)
      exact ⟨Status.stopped, rfl, by rw [hr]⟩

/-- C6: every observable status history of a job is a prefix of Queued, then
Running, then exactly one terminal status among Completed, Failed, Stopped; and
every allowed transition strictly increases the lifecycle rank, so no operation
moves a status backward. -/
theorem status_trace_lifecycle_shape (l : List Status) (h : isTrace l = true) :
    (l = [] ∨ l = [Status.queued] ∨ l = [Status.queued, Status.running] ∨
      ∃ t, Status.isTerminal t = true ∧ l = [Status.queued, Status.running, t]) ∧
    (∀ a b, stepAllowed a b = true → statusRank a < statusRank b) := by
  refine ⟨?_, by intro a b hab; cases a <;> cases b <;> simp_all [stepAllowed, statusRank]⟩
  cases l with
  | nil => exact Or.inl rfl
  | cons s rest =>
    have hs : s = Status.queued ∧ chainFrom s rest = true := by
      simpa [isTrace, Bool.and_eq_true] using h
    obtain ⟨hq, hchain⟩ := hs
    subst hq
    cases rest with
    | nil => exact Or.inr (Or.inl rfl)
    | cons t rest2 =>
      cases t with
      | queued => simp [chainFrom, stepAllowed] at hchain
      | completed => simp [chainFrom, stepAllowed] at hchain
      | failed => simp [chainFrom, stepAllowed] at hchain
      | stopped => simp [chainFrom, stepAllowed] at hchain
      | running =>
        have hrun : chainFrom Status.running rest2 = true := by
          simpa [chainFrom, stepAllowed] using hchain
        rcases chainFrom_running_cases rest2 hrun with h0 | ⟨u, hu, hrest⟩
        · subst h0
          exact Or.inr (Or.inr (Or.inl rfl))
        · subst hrest
          exact Or.inr (Or.inr (Or.inr ⟨u, hu, rfl⟩))

/-- Witness for C6 at the concrete history Queued, Running, Completed. -/
theorem status_trace_lifecycle_shape_witness :
    (([Status.queued, Status.running, Status.completed] : List Status) = [] ∨
      [Status.queued, Status.running, Status.completed] = [Status.queued] ∨
      [Status.queued, Status.running, Status.completed] =
        [Status.queued, Status.running] ∨
      ∃ t, Status.isTerminal t = true ∧
        [Status.queued, Status.running, Status.completed] =
          [Status.queued, Status.running, t]) ∧
    (∀ a b, stepAllowed a b = true → statusRank a < statusRank b) :=
  status_trace_lifecycle_shape [Status.queued, Status.running, Status.completed]
    (by decide)

/-- C7: when `end < start`, the registry's `create` fails with InvalidRange and
returns the registry unchanged — no job is persisted and no job ID is issued. -/
theorem create_invalid_range_no_persist (s e : Int) (reg : Registry) (h : e < s) :
    create s e reg = (Except.error CreateError.invalidRange, reg) := by
  simp [create, h]

/-- Witness for C7 at the concrete range [50, 10] on an empty registry. -/
theorem create_invalid_range_no_persist_witness :
    create 50 10 (Registry.mk [] 0) =
      (Except.error CreateError.invalidRange, Registry.mk [] 0) :=
  create_invalid_range_no_persist 50 10 (Registry.mk [] 0) (by decide)

/-- Every subcommand's first effect is its single HTTP request, whose URL is the
server base URL followed by the subcommand's path. -/
theorem runSub_head (server : String) (s : Sub) (r : Response) :
    (runSub server s r).1.head? = some (subRequestEffect server s) := by
  cases s with
  | request a b =>
    cases hb : raiseForStatus r <;> simp [runSub, cmd_request, hb, subRequestEffect]
  | status j =>
    cases hb : raiseForStatus r <;> simp [runSub, cmd_status, hb, subRequestEffect]
  | stop j =>
    cases hb : raiseForStatus r <;> simp [runSub, cmd_stop, hb, subRequestEffect]
  | download j o =>
    by_cases h200 : r.status_code = 200 <;>
      simp [runSub, cmd_download, h200, subRequestEffect]
  | list =>
    cases hb : raiseForStatus r with
    | false =>
      cases hj : jsonIter r.jsonData <;>
        simp [runSub, cmd_list, hb, hj, subRequestEffect]
    | true => simp [runSub, cmd_list, hb, subRequestEffect]

/-- C8: without the `--server` flag the HTTP request of every subcommand is built
on the base URL `http://localhost:8080` (the parser default); with `--server
BASE_URL` it is built on BASE_URL instead. -/
theorem server_flag_default_and_override (s : Sub) (r : Response) (b : String) :
    defaultServer = "http://localhost:8080" ∧
    (runMain (Cli.mk none (some s)) r).1.head? =
      some (subRequestEffect "http://localhost:8080" s) ∧
    (runMain (Cli.mk (some b) (some s)) r).1.head? =
      some (subRequestEffect b s) :=
  ⟨rfl, runSub_head defaultServer s r, runSub_head b s r⟩

/-- C9: the list subcommand on a 2xx response whose body parses as a JSON array
performs one GET to `{server}/jobs` and then prints exactly the array's elements,
one print per element, in the array's order. -/
theorem list_prints_ids_in_order (server : String) (r : Response) (ids : List Json)
    (hj : r.jsonData = Json.arr ids) (h2 : 200 ≤ r.status_code)
    (h3 : r.status_code < 300) :
    cmd_list server r =
      (Effect.httpGet (server ++ "/jobs") :: ids.map Effect.printJson, Outcome.ok) := by
  have hrs : raiseForStatus r = false := by
    unfold raiseForStatus
    simp only [Bool.and_eq_false_iff, decide_eq_false_iff_not, not_le, not_lt]
    omega
  simp [cmd_list, hrs, hj, jsonIter]

/-- Witness for C9 at a concrete 200 response containing two job IDs. -/
theorem list_prints_ids_in_order_witness :
    cmd_list "http://localhost:8080"
        (Response.mk 200 "" [] (Json.arr [Json.str "a", Json.str "b"])) =
      (Effect.httpGet ("http://localhost:8080" ++ "/jobs") ::
        ([Json.str "a", Json.str "b"].map Effect.printJson), Outcome.ok) :=
  list_prints_ids_in_order "http://localhost:8080"
    (Response.mk 200 "" [] (Json.arr [Json.str "a", Json.str "b"]))
    [Json.str "a", Json.str "b"] rfl (by decide) (by decide)

/-- C10: with no subcommand the client only prints the help text and terminates
normally — the effect list holds no HTTP request and no file write. -/
theorem no_subcommand_help_only (server : Option String) (r : Response) :
    runMain (Cli.mk server none) r = ([Effect.printHelp], Outcome.ok) ∧
    ∀ e ∈ (runMain (Cli.mk server none) r).1,
      e.isHttp = false ∧ ∀ p bytes, e ≠ Effect.writeFile p bytes := by
  refine ⟨rfl, ?_⟩
  intro e he
  simp only [runMain, List.mem_singleton] at he
  subst he
  exact ⟨rfl, fun p bytes hcontra => Effect.noConfusion hcontra⟩

/-- Witness for C10 at a concrete invocation with no subcommand, with the
membership hypothesis discharged at the one effect produced. -/
theorem no_subcommand_help_only_witness :
    runMain (Cli.mk none none) (Response.mk 200 "" [] Json.null) =
      ([Effect.printHelp], Outcome.ok) ∧
    Effect.printHelp.isHttp = false ∧
    (∀ p bytes, Effect.printHelp ≠ Effect.writeFile p bytes) :=
  ⟨(no_subcommand_help_only none (Response.mk 200 "" [] Json.null)).1,
   (no_subcommand_help_only none (Response.mk 200 "" [] Json.null)).2
     Effect.printHelp (by simp [runMain])⟩

end EthFetcher
